import Mathlib

/-
Verification of the OpenAI gateway (src/src/index.ts).

The file shallowly embeds the gateway's pipeline: the axios-backed upstream
client, the retrying session acquirer `getNewSession`, the completion stage
`getCompletionWithOpenAi`, the request handlers and the express routing.
The source holds two deployment variants of the program: the conversation
variant (index.ts lines 1-180) and the session-only variant (lines 181-353);
functions of the second variant carry a `B` suffix here.

Request and response bodies are untyped (`any`) in the source, so they are
modelled as JSON-like dynamic values.  Oracles stand for the two upstream
services: a session oracle gives the outcome of the outbound session fetch
made at each value of the retry counter, and a completion oracle gives the
outcome of the single completion post as a function of the posted body.
-/

set_option autoImplicit false

namespace OpenAiGateway

/-- JSON-like dynamic values modelling the untyped (`any`) request and
response bodies the gateway passes around.  A missing object key plays the
role of JavaScript `undefined`: it is falsy, and absent from serialized
output, exactly like a key that is not there. -/
inductive Jval where
  | null
  | boolean (b : Bool)
  | number (n : Int)
  | string (s : String)
  | array (elems : List Jval)
  | object (fields : List (String × Jval))

/-- First-match association-list lookup, mirroring JavaScript property
access on an object (keys in the objects built here are unique). -/
def lookupKey : List (String × Jval) → String → Option Jval
  | [], _ => none
  | (k, v) :: rest, key => if k = key then some v else lookupKey rest key

/-- Property read.  On a non-object value this returns `none`, as JavaScript
property access on a primitive yields `undefined` (the `null` receiver,
which would throw, is never exercised by the traces verified here). -/
def Jval.get : Jval → String → Option Jval
  | .object fields, key => lookupKey fields key
  | _, _ => none

/-- Property write on an association list: update in place when the key
exists, else append, matching JavaScript property-insertion order. -/
def setKey : List (String × Jval) → String → Jval → List (String × Jval)
  | [], key, v => [(key, v)]
  | (k, w) :: rest, key, v =>
      if k = key then (k, v) :: rest else (k, w) :: setKey rest key v

/-- Property write.  Assignment on a non-object primitive is silently
discarded, as in non-strict JavaScript. -/
def Jval.setField : Jval → String → Jval → Jval
  | .object fields, key, v => .object (setKey fields key v)
  | other, _, _ => other

/-- JavaScript truthiness of a value. -/
def truthyV : Jval → Bool
  | .null => false
  | .boolean b => b
  | .number n => n != 0
  | .string s => s != ""
  | .array _ => true
  | .object _ => true

/-- Truthiness of a possibly-missing value; `none` is `undefined`, falsy. -/
def truthy : Option Jval → Bool
  | none => false
  | some v => truthyV v

/-- Outcome of one outbound HTTP exchange as seen on the wire: either a
response (of any status) arrives, or the transport fails and no response is
obtained at all (DNS failure, connection reset, timeout). -/
inductive UpstreamOutcome where
  | reply (status : Int) (body : Jval)
  | netError

/-- Shape of a rejected axios promise: either an error carrying the
received response (`error.response` set) or a pure transport error with no
response attached. -/
inductive AxiosError where
  | withResponse (status : Int) (body : Jval)
  | noResponse

/-- Models the axios request promise under the library's default
`validateStatus` (`axiosInstance = axios.create()` at line 60 configures
nothing): a received response resolves the promise only when its status is
in [200, 300); a received response with any other status rejects the
promise with `error.response` set to that response; a transport failure
rejects with no response attached. -/
def axiosCall : UpstreamOutcome → Except AxiosError (Int × Jval)
  | .reply status body =>
      if 200 ≤ status ∧ status < 300 then .ok (status, body)
      else .error (.withResponse status body)
  | .netError => .error .noResponse

/-- Whether the fetch promise rejects (throws) for this wire outcome. -/
def fetchThrows (o : UpstreamOutcome) : Bool :=
  match axiosCall o with
  | .ok _ => false
  | .error _ => true

/-- Embeds `handleErrorResponse` (index.ts lines 74-91, identical at
265-282).  An axios error carrying a response is normalized by copying the
response status and the body's `message` field; anything else — a transport
error or the `null` passed by the missing-session guard — becomes the
generic 500 result.  A body without a `message` makes the `error` property
`undefined`, modelled as the key being absent. -/
def handleErrorResponse : Option AxiosError → Jval
  | some (.withResponse status body) =>
      Jval.object (("status", Jval.boolean false) ::
        ("statusCode", Jval.number status) ::
        (match body.get "message" with
         | some m => [("error", m)]
         | none => []))
  | _ =>
      Jval.object [("status", Jval.boolean false),
        ("statusCode", Jval.number 500),
        ("error", Jval.string "Internal server error")]

/-- Embeds the post-processing `if (!errorResponse.error) errorResponse.error = msg`
applied by the conversation variant before returning a terminal error. -/
def patchError (v : Jval) (msg : String) : Jval :=
  if truthy (v.get "error") then v else v.setField "error" (Jval.string msg)

/-- The retry bound `newSessionRetries` (line 12). -/
def newSessionRetries : Nat := 100

/-- Return value of a session-acquisition run together with
instrumentation: how many `axiosInstance.get(sessionUrl)` attempts were
made and how many times `wait(1)` ran. -/
structure SessionRun where
  result : Jval
  attempts : Nat
  waits : Nat

/-- Embeds `getNewSession` (lines 93-112), the conversation-variant session
acquirer.  The oracle `up` gives the wire outcome of the attempt made at
each value of the `retries` counter.  The `result` component mirrors the
source: on a resolved fetch the response body is returned with its
`statusCode` overwritten by the HTTP status; on a rejected fetch the
function waits and recurses while `retries < newSessionRetries`, and
otherwise returns the normalized error, defaulting a missing `error`
message.  `attempts` counts the fetches and `waits` the delays. -/
def getNewSessionRun (up : Nat → UpstreamOutcome) (retries : Nat) : SessionRun :=
  match axiosCall (up retries) with
  | .ok (status, body) =>
      ⟨body.setField "statusCode" (Jval.number status), 1, 0⟩
  | .error e =>
      if h : retries < newSessionRetries then
        let r := getNewSessionRun up (retries + 1)
        ⟨r.result, r.attempts + 1, r.waits + 1⟩
      else
        ⟨patchError (handleErrorResponse (some e)) "Error while getting session...", 1, 1⟩
termination_by newSessionRetries - retries
decreasing_by omega

/-- The session acquirer's returned value, starting from the default
argument `retries = 0` with which the handler calls it. -/
def getNewSession (up : Nat → UpstreamOutcome) : Jval :=
  (getNewSessionRun up 0).result

/-- Embeds the session-only variant's `getNewSession` (lines 284-299),
which returns the normalized error unpatched on give-up. -/
def getNewSessionRunB (up : Nat → UpstreamOutcome) (retries : Nat) : SessionRun :=
  match axiosCall (up retries) with
  | .ok (status, body) =>
      ⟨body.setField "statusCode" (Jval.number status), 1, 0⟩
  | .error e =>
      if h : retries < newSessionRetries then
        let r := getNewSessionRunB up (retries + 1)
        ⟨r.result, r.attempts + 1, r.waits + 1⟩
      else
        ⟨handleErrorResponse (some e), 1, 1⟩
termination_by newSessionRetries - retries
decreasing_by omega

/-- Result of one completion-stage call plus the number of outbound
`axiosInstance.post` network calls it made (0 or 1). -/
structure CompletionRun where
  result : Jval
  netCalls : Nat

/-- Embeds `getCompletionWithOpenAi` (lines 114-133), the conversation
variant: a guard short-circuits when the request's `session` field is
falsy, otherwise a single post is made whose outcome the oracle `cUp` may
make depend on the posted body, and a rejected post is normalized with the
"Error while getting completions..." default for a missing message. -/
def getCompletionWithOpenAiRun (cUp : Jval → UpstreamOutcome)
    (completionRequest : Jval) : CompletionRun :=
  if truthy (completionRequest.get "session") = false then
    ⟨handleErrorResponse none, 0⟩
  else
    match axiosCall (cUp completionRequest) with
    | .ok (status, body) => ⟨body.setField "statusCode" (Jval.number status), 1⟩
    | .error e =>
        ⟨patchError (handleErrorResponse (some e)) "Error while getting completions...", 1⟩

/-- Embeds the session-only variant's `getCompletionWithOpenAi`
(lines 301-311): the argument is the session value itself (possibly
`undefined`, modelled as `none`), and a rejected post is returned
unpatched. -/
def getCompletionWithOpenAiRunB (cUp : Jval → UpstreamOutcome)
    (session : Option Jval) : CompletionRun :=
  if truthy session = false then
    ⟨handleErrorResponse none, 0⟩
  else
    match axiosCall (cUp (session.getD Jval.null)) with
    | .ok (status, body) => ⟨body.setField "statusCode" (Jval.number status), 1⟩
    | .error e => ⟨handleErrorResponse (some e), 1⟩

/-- Body of an HTTP reply sent to the gateway's own caller. -/
inductive ReplyBody where
  | empty
  | text (s : String)
  | json (v : Jval)

/-- An HTTP reply to the gateway's caller: status plus body. -/
structure HttpReply where
  status : Int
  body : ReplyBody

/-- The numeric value handed to `res.status(result.statusCode)`.  Every
result the handlers relay carries a numeric `statusCode`, so the fallback 0
for a missing or non-numeric field is not exercised on those paths. -/
def jStatus (v : Jval) : Int :=
  match v.get "statusCode" with
  | some (Jval.number n) => n
  | _ => 0

/-- HTTP method of an inbound request. -/
inductive Method where
  | get
  | post
  | options
  | other (name : String)
  deriving DecidableEq

/-- The method name as `req.method.toLocaleUpperCase()` renders it. -/
def methodName : Method → String
  | .get => "GET"
  | .post => "POST"
  | .options => "OPTIONS"
  | .other s => s.toUpper

/-- Builds the `{ session, conversation }` completion request of
`handleConversation` (lines 149-152).  When the session result carries no
`data` field the `session` property is `undefined`, modelled as absent. -/
def composedOf (sessionResult reqBody : Jval) : Jval :=
  Jval.object
    ((match sessionResult.get "data" with
      | some v => [("session", v)]
      | none => []) ++ [("conversation", reqBody)])

/-- Instrumented outcome of one inbound request: the HTTP reply plus how
many session-fetch attempts, completion-stage invocations and completion
network calls happened while serving it. -/
structure HandlerRun where
  reply : HttpReply
  sessionAttempts : Nat
  compInvocations : Nat
  compNetCalls : Nat

/-- Embeds `handleConversation` (lines 140-155): acquire a session; when the
result's `status` is falsy relay its `statusCode` and body as-is; otherwise
build the completion request from the result's `data` field and the inbound
body and relay the completion stage's result. -/
def handleConversationRun (sUp : Nat → UpstreamOutcome) (cUp : Jval → UpstreamOutcome)
    (reqBody : Jval) : HandlerRun :=
  let s := getNewSessionRun sUp 0
  if truthy (s.result.get "status") = false then
    ⟨⟨jStatus s.result, ReplyBody.json s.result⟩, s.attempts, 0, 0⟩
  else
    let c := getCompletionWithOpenAiRun cUp (composedOf s.result reqBody)
    ⟨⟨jStatus c.result, ReplyBody.json c.result⟩, s.attempts, 1, c.netCalls⟩

/-- Embeds the session-only variant's `handleChatCompletion`
(lines 318-328): same orchestration, passing the session value itself to
the completion stage. -/
def handleChatCompletionRun (sUp : Nat → UpstreamOutcome)
    (cUp : Jval → UpstreamOutcome) : HandlerRun :=
  let s := getNewSessionRunB sUp 0
  if truthy (s.result.get "status") = false then
    ⟨⟨jStatus s.result, ReplyBody.json s.result⟩, s.attempts, 0, 0⟩
  else
    let c := getCompletionWithOpenAiRunB cUp (s.result.get "data")
    ⟨⟨jStatus c.result, ReplyBody.json c.result⟩, s.attempts, 1, c.netCalls⟩

/-- Welcome text written by `handleDefault` (line 136). -/
def welcomeText : String :=
  "Welcome OpenAI Gateway API - The service running correctly"

/-- Body of the 404 fallback (lines 164-174). -/
def notFoundBody (port : String) (m : Method) (path : String) : Jval :=
  Jval.object [("status", Jval.boolean false),
    ("error", Jval.object [
      ("message", Jval.string ("The requested endpoint (" ++ methodName m ++ " " ++ path ++
        ") was not found. please make sure to use \"http://localhost:" ++ port ++
        "/v1\" as the base URL.")),
      ("type", Jval.string "invalid_request_error")])]

/-- Middleware and routing of the conversation-variant app (lines 157-174):
`enableCORS` answers every OPTIONS request with 200 before any route is
consulted; then `GET /` and `POST /v1/chat/completions` are matched, and
everything else falls through to the 404 handler. -/
def gateway (port : String) (sUp : Nat → UpstreamOutcome) (cUp : Jval → UpstreamOutcome)
    (m : Method) (path : String) (reqBody : Jval) : HttpReply :=
  if m = Method.options then ⟨200, ReplyBody.empty⟩
  else if m = Method.get ∧ path = "/" then ⟨200, ReplyBody.text welcomeText⟩
  else if m = Method.post ∧ path = "/v1/chat/completions" then
    (handleConversationRun sUp cUp reqBody).reply
  else ⟨404, ReplyBody.json (notFoundBody port m path)⟩

/-- The `error.type` field inside a JSON reply's body, when there is one. -/
def errType (r : HttpReply) : Option Jval :=
  match r.body with
  | .json v => (v.get "error").bind (fun e => e.get "type")
  | _ => none

/-- States the spec's uniform-result invariant in the spec's own words: the
`status` flag is truthy exactly when the `error` field is absent and the
`data` field is present. -/
def uniformInv (v : Jval) : Bool :=
  truthy (v.get "status") == ((v.get "error").isNone && (v.get "data").isSome)

/-- A session oracle whose every fetch fails at the transport level. -/
def alwaysNetError : Nat → UpstreamOutcome := fun _ => UpstreamOutcome.netError

/-- A session oracle whose first fetch receives a 404 response and whose
later fetches receive a 200 response. -/
def first404 : Nat → UpstreamOutcome := fun i =>
  if i = 0 then UpstreamOutcome.reply 404 (Jval.object [("message", Jval.string "not found")])
  else UpstreamOutcome.reply 200 (Jval.object [("status", Jval.boolean true),
    ("data", Jval.object [("token", Jval.string "t")])])

/-- A session oracle replying 200 with a body whose `status` is true but
which carries no `data` field. -/
def okNoData : Nat → UpstreamOutcome := fun _ =>
  UpstreamOutcome.reply 200 (Jval.object [("status", Jval.boolean true)])

/-- A completion oracle whose single post receives a 404 response with an
empty body (so the normalized result has no error message). -/
def comp404Blank : Jval → UpstreamOutcome := fun _ =>
  UpstreamOutcome.reply 404 (Jval.object [])

/-- A completion oracle that echoes the posted body back with status 200. -/
def compEcho : Jval → UpstreamOutcome := fun b => UpstreamOutcome.reply 200 b

/-- A completion oracle whose single post fails at the transport level. -/
def compNetError : Jval → UpstreamOutcome := fun _ => UpstreamOutcome.netError

/-- A session oracle replying 200 with a well-formed body: `status` true
and a `data` payload present. -/
def okGood : Nat → UpstreamOutcome := fun _ =>
  UpstreamOutcome.reply 200 (Jval.object [("status", Jval.boolean true),
    ("data", Jval.object [("token", Jval.string "t")])])

/-- A session oracle replying 200 with a body whose `status` is false. -/
def okStatusFalse : Nat → UpstreamOutcome := fun _ =>
  UpstreamOutcome.reply 200 (Jval.object [("status", Jval.boolean false)])

/-- A completion request carrying a (truthy) session object. -/
def reqSessionOnly : Jval :=
  Jval.object [("session", Jval.object [("token", Jval.string "t")])]

/-- A concrete session bundle used in round-trip runs. -/
def bundleC : Jval := Jval.object [("token", Jval.string "t")]

/-- A concrete inbound conversation body used in round-trip runs. -/
def convC : Jval := Jval.object [("model", Jval.string "gpt")]


/-! Helper lemmas: branch equations for the retrying session acquirer and
small inversion facts about the fetch outcome. -/

theorem fetch_ok_of_not_throws (o : UpstreamOutcome) (h : fetchThrows o = false) :
    ∃ status body, axiosCall o = Except.ok (status, body) := by
  unfold fetchThrows at h
  cases ha : axiosCall o with
  | ok p => exact ⟨p.1, p.2, rfl⟩
  | error e => rw [ha] at h; simp at h

theorem fetch_err_of_throws (o : UpstreamOutcome) (h : fetchThrows o = true) :
    ∃ e, axiosCall o = Except.error e := by
  unfold fetchThrows at h
  cases ha : axiosCall o with
  | ok p => rw [ha] at h; simp at h
  | error e => exact ⟨e, rfl⟩

theorem getNewSessionRun_ok (up : Nat → UpstreamOutcome) (retries : Nat)
    (status : Int) (body : Jval)
    (h : axiosCall (up retries) = Except.ok (status, body)) :
    getNewSessionRun up retries =
      ⟨body.setField "statusCode" (Jval.number status), 1, 0⟩ := by
  rw [getNewSessionRun, h]

theorem getNewSessionRun_retry (up : Nat → UpstreamOutcome) (retries : Nat)
    (e : AxiosError) (h : axiosCall (up retries) = Except.error e)
    (hr : retries < newSessionRetries) :
    getNewSessionRun up retries =
      ⟨(getNewSessionRun up (retries + 1)).result,
       (getNewSessionRun up (retries + 1)).attempts + 1,
       (getNewSessionRun up (retries + 1)).waits + 1⟩ := by
  conv_lhs => rw [getNewSessionRun]
  rw [h]
  simp [dif_pos hr]

theorem getNewSessionRun_last (up : Nat → UpstreamOutcome) (retries : Nat)
    (e : AxiosError) (h : axiosCall (up retries) = Except.error e)
    (hr : ¬ retries < newSessionRetries) :
    getNewSessionRun up retries =
      ⟨patchError (handleErrorResponse (some e)) "Error while getting session...", 1, 1⟩ := by
  rw [getNewSessionRun, h]
  simp [dif_neg hr]

theorem getNewSessionRunB_ok (up : Nat → UpstreamOutcome) (retries : Nat)
    (status : Int) (body : Jval)
    (h : axiosCall (up retries) = Except.ok (status, body)) :
    getNewSessionRunB up retries =
      ⟨body.setField "statusCode" (Jval.number status), 1, 0⟩ := by
  rw [getNewSessionRunB, h]

theorem getNewSessionRunB_retry (up : Nat → UpstreamOutcome) (retries : Nat)
    (e : AxiosError) (h : axiosCall (up retries) = Except.error e)
    (hr : retries < newSessionRetries) :
    getNewSessionRunB up retries =
      ⟨(getNewSessionRunB up (retries + 1)).result,
       (getNewSessionRunB up (retries + 1)).attempts + 1,
       (getNewSessionRunB up (retries + 1)).waits + 1⟩ := by
  conv_lhs => rw [getNewSessionRunB]
  rw [h]
  simp [dif_pos hr]

theorem getNewSessionRunB_last (up : Nat → UpstreamOutcome) (retries : Nat)
    (e : AxiosError) (h : axiosCall (up retries) = Except.error e)
    (hr : ¬ retries < newSessionRetries) :
    getNewSessionRunB up retries =
      ⟨handleErrorResponse (some e), 1, 1⟩ := by
  rw [getNewSessionRunB, h]
  simp [dif_neg hr]

/-- When the first `d` attempts starting at counter value `retries` all
throw and attempt `retries + d` resolves, the run returns that response
with its status written in, after `d + 1` fetches and `d` waits. -/
theorem run_succ (up : Nat → UpstreamOutcome) :
    ∀ (d retries : Nat), retries + d ≤ newSessionRetries →
    (∀ i, retries ≤ i → i < retries + d → fetchThrows (up i) = true) →
    ∀ status body, axiosCall (up (retries + d)) = Except.ok (status, body) →
    getNewSessionRun up retries =
      ⟨body.setField "statusCode" (Jval.number status), d + 1, d⟩ := by
  intro d
  induction d with
  | zero =>
      intro retries _ _ status body hok
      rw [Nat.add_zero] at hok
      exact getNewSessionRun_ok up retries status body hok
  | succ d ih =>
      intro retries hb hthrow status body hok
      obtain ⟨e, he⟩ := fetch_err_of_throws (up retries)
        (hthrow retries le_rfl (by omega))
      have heq : retries + (d + 1) = (retries + 1) + d := by omega
      rw [heq] at hok
      have hrec := ih (retries + 1) (by omega)
        (fun i h1 h2 => hthrow i (by omega) (by omega)) status body hok
      rw [getNewSessionRun_retry up retries e he (by omega), hrec]

/-- When every attempt from counter value `retries` up to the bound throws,
the run gives up at the bound, returning the patched normalized error after
`d + 1` fetches and `d + 1` waits, where `retries + d = newSessionRetries`. -/
theorem run_allThrow (up : Nat → UpstreamOutcome) :
    ∀ (d retries : Nat), retries + d = newSessionRetries →
    (∀ i, retries ≤ i → i ≤ newSessionRetries → fetchThrows (up i) = true) →
    ∃ e, axiosCall (up newSessionRetries) = Except.error e ∧
      getNewSessionRun up retries =
        ⟨patchError (handleErrorResponse (some e)) "Error while getting session...",
         d + 1, d + 1⟩ := by
  intro d
  induction d with
  | zero =>
      intro retries h0 hthrow
      have hret : retries = newSessionRetries := by omega
      obtain ⟨e, he⟩ := fetch_err_of_throws (up retries)
        (hthrow retries le_rfl (by omega))
      refine ⟨e, ?_, getNewSessionRun_last up retries e he (by omega)⟩
      rw [← hret]
      exact he
  | succ d ih =>
      intro retries h0 hthrow
      obtain ⟨e0, he0⟩ := fetch_err_of_throws (up retries)
        (hthrow retries le_rfl (by omega))
      obtain ⟨e, he, hrun⟩ := ih (retries + 1) (by omega)
        (fun i h1 h2 => hthrow i (by omega) h2)
      exact ⟨e, he, by
        rw [getNewSessionRun_retry up retries e0 he0 (by omega), hrun]⟩

/-- Every run makes at least one fetch attempt. -/
theorem attempts_pos (up : Nat → UpstreamOutcome) (retries : Nat) :
    1 ≤ (getNewSessionRun up retries).attempts := by
  cases ha : axiosCall (up retries) with
  | ok p =>
      rw [getNewSessionRun_ok up retries p.1 p.2 (by rw [ha])]
  | error e =>
      by_cases hr : retries < newSessionRetries
      · rw [getNewSessionRun_retry up retries e ha hr]
        exact Nat.le_add_left 1 _
      · rw [getNewSessionRun_last up retries e ha hr]

/-- The attempt counter is bounded: starting at counter value `retries`
with `retries + d = newSessionRetries`, at most `d + 1` fetches happen. -/
theorem attempts_le (up : Nat → UpstreamOutcome) :
    ∀ (d retries : Nat), retries + d = newSessionRetries →
    (getNewSessionRun up retries).attempts ≤ d + 1 := by
  intro d
  induction d with
  | zero =>
      intro retries h0
      cases ha : axiosCall (up retries) with
      | ok p => rw [getNewSessionRun_ok up retries p.1 p.2 (by rw [ha])]
      | error e => rw [getNewSessionRun_last up retries e ha (by omega)]
  | succ d ih =>
      intro retries h0
      cases ha : axiosCall (up retries) with
      | ok p =>
          rw [getNewSessionRun_ok up retries p.1 p.2 (by rw [ha])]
          show 1 ≤ d + 1 + 1
          omega
      | error e =>
          rw [getNewSessionRun_retry up retries e ha (by omega)]
          have := ih (retries + 1) (by omega)
          show (getNewSessionRun up (retries + 1)).attempts + 1 ≤ d + 1 + 1
          omega

/-- Every result of the conversation-variant session acquirer is either a
resolved response body with its `statusCode` overwritten, or the patched
normalized form of some thrown error. -/
theorem run_cases (up : Nat → UpstreamOutcome) :
    ∀ (d retries : Nat), retries + d = newSessionRetries →
    (∃ i status body, axiosCall (up i) = Except.ok (status, body) ∧
        (getNewSessionRun up retries).result =
          body.setField "statusCode" (Jval.number status)) ∨
    (∃ e, (getNewSessionRun up retries).result =
        patchError (handleErrorResponse (some e)) "Error while getting session...") := by
  intro d
  induction d with
  | zero =>
      intro retries h0
      cases ha : axiosCall (up retries) with
      | ok p =>
          exact Or.inl ⟨retries, p.1, p.2, by rw [ha],
            by rw [getNewSessionRun_ok up retries p.1 p.2 (by rw [ha])]⟩
      | error e =>
          exact Or.inr ⟨e, by rw [getNewSessionRun_last up retries e ha (by omega)]⟩
  | succ d ih =>
      intro retries h0
      cases ha : axiosCall (up retries) with
      | ok p =>
          exact Or.inl ⟨retries, p.1, p.2, by rw [ha],
            by rw [getNewSessionRun_ok up retries p.1 p.2 (by rw [ha])]⟩
      | error e =>
          have hstep := getNewSessionRun_retry up retries e ha (by omega)
          rcases ih (retries + 1) (by omega) with
            ⟨i, status, body, hok, hres⟩ | ⟨e2, hres⟩
          · exact Or.inl ⟨i, status, body, hok, by rw [hstep]; exact hres⟩
          · exact Or.inr ⟨e2, by rw [hstep]; exact hres⟩

/-- The invariant is preserved by a conditional when both branches satisfy it. -/
theorem uniformInv_ite (c : Prop) [Decidable c] (a b : Jval)
    (ha : uniformInv a = true) (hb : uniformInv b = true) :
    uniformInv (if c then a else b) = true := by
  by_cases h : c
  · rwa [if_pos h]
  · rwa [if_neg h]

/-- Branch equation of `handleErrorResponse` for a response body carrying
no `message`. -/
theorem handleError_withResponse_none (status : Int) (body : Jval)
    (hm : body.get "message" = none) :
    handleErrorResponse (some (AxiosError.withResponse status body)) =
      Jval.object [("status", Jval.boolean false), ("statusCode", Jval.number status)] := by
  show Jval.object (("status", Jval.boolean false) :: ("statusCode", Jval.number status) ::
      (match body.get "message" with
       | some m => [("error", m)]
       | none => [])) = _
  rw [hm]

/-- Branch equation of `handleErrorResponse` for a response body carrying
a `message`. -/
theorem handleError_withResponse_some (status : Int) (body m : Jval)
    (hm : body.get "message" = some m) :
    handleErrorResponse (some (AxiosError.withResponse status body)) =
      Jval.object [("status", Jval.boolean false), ("statusCode", Jval.number status),
        ("error", m)] := by
  show Jval.object (("status", Jval.boolean false) :: ("statusCode", Jval.number status) ::
      (match body.get "message" with
       | some m => [("error", m)]
       | none => [])) = _
  rw [hm]

/-- Every error-normalized result satisfies the uniform-result invariant:
its `status` is false and it carries no `data`. -/
theorem uniformInv_handleError (e : Option AxiosError) :
    uniformInv (handleErrorResponse e) = true := by
  match e with
  | none => rfl
  | some .noResponse => rfl
  | some (.withResponse status body) =>
      cases hm : body.get "message" with
      | none => rw [handleError_withResponse_none status body hm]; rfl
      | some m => rw [handleError_withResponse_some status body m hm]; rfl

/-- The invariant also survives the default-message patch applied to an
error-normalized result. -/
theorem uniformInv_patchError (e : Option AxiosError) (msg : String) :
    uniformInv (patchError (handleErrorResponse e) msg) = true := by
  match e with
  | none => rfl
  | some .noResponse => rfl
  | some (.withResponse status body) =>
      cases hm : body.get "message" with
      | none =>
          rw [handleError_withResponse_none status body hm]
          unfold patchError
          exact uniformInv_ite _ _ _ rfl rfl
      | some m =>
          rw [handleError_withResponse_some status body m hm]
          unfold patchError
          exact uniformInv_ite _ _ _ rfl rfl

/-- Branch equation of the conversation-variant completion stage for a
resolved post. -/
theorem getCompletionWithOpenAiRun_ok (cUp : Jval → UpstreamOutcome) (req : Jval)
    (status : Int) (body : Jval)
    (hs : truthy (req.get "session") = true)
    (hok : axiosCall (cUp req) = Except.ok (status, body)) :
    getCompletionWithOpenAiRun cUp req =
      ⟨body.setField "statusCode" (Jval.number status), 1⟩ := by
  unfold getCompletionWithOpenAiRun
  rw [hs, hok]
  rw [if_neg (by simp)]

/-! Claim theorems. -/

/-- C1 (counterexample): the claim says that with every session fetch
throwing, `getNewSession` makes exactly `min(N, 100)` attempts — at most
100 — before giving up.  On the oracle whose every fetch fails at the
transport level the code makes 101 attempts (the initial attempt plus 100
retries), so the claimed bound of 100 is exceeded. -/
theorem claim1_counterexample :
    (getNewSessionRun alwaysNetError 0).attempts = 101 ∧
    ¬ (getNewSessionRun alwaysNetError 0).attempts ≤ 100 := by
  obtain ⟨e, he, hrun⟩ := run_allThrow alwaysNetError newSessionRetries 0 (by omega)
    (fun i h1 h2 => rfl)
  have ha : (getNewSessionRun alwaysNetError 0).attempts = 101 := by rw [hrun]; rfl
  exact ⟨ha, by rw [ha]; decide⟩

/-- C1 (amended): when the first `N` session fetches throw and, if the
bound is not yet exhausted, fetch `N` resolves, `getNewSession` makes
exactly `min(N + 1, 101)` fetch attempts — the initial attempt plus up to
`newSessionRetries = 100` retries — and performs `min(N, 101)` waits, one
between every two consecutive attempts (plus one after the final throw
when it gives up). -/
theorem claim1_min_attempts (up : Nat → UpstreamOutcome) (N : Nat)
    (hfail : ∀ i, i < N → fetchThrows (up i) = true)
    (hstop : N ≤ newSessionRetries → fetchThrows (up N) = false) :
    (getNewSessionRun up 0).attempts = min (N + 1) (newSessionRetries + 1) ∧
    (getNewSessionRun up 0).waits = min N (newSessionRetries + 1) := by
  by_cases hN : N ≤ newSessionRetries
  · obtain ⟨status, body, hok⟩ := fetch_ok_of_not_throws (up N) (hstop hN)
    have hrun := run_succ up N 0 (by omega)
      (fun i h1 h2 => hfail i (by omega)) status body (by rw [Nat.zero_add]; exact hok)
    rw [hrun]
    have hN2 : N ≤ 100 := hN
    constructor
    · show N + 1 = min (N + 1) 101
      exact (min_eq_left (by omega : N + 1 ≤ 101)).symm
    · show N = min N 101
      exact (min_eq_left (by omega : N ≤ 101)).symm
  · obtain ⟨e, he, hrun⟩ := run_allThrow up newSessionRetries 0 (by omega)
      (fun i h1 h2 => hfail i (by omega))
    rw [hrun]
    have hN2 : ¬ N ≤ 100 := hN
    constructor
    · show 101 = min (N + 1) 101
      exact (min_eq_right (by omega : 101 ≤ N + 1)).symm
    · show 101 = min N 101
      exact (min_eq_right (by omega : 101 ≤ N)).symm

/-- C1 (witness): three transport failures followed by a resolved fetch
give four attempts and three waits. -/
theorem claim1_min_attempts_witness :
    (getNewSessionRun (fun i => if i < 3 then UpstreamOutcome.netError else okGood i) 0).attempts
      = min (3 + 1) (newSessionRetries + 1) ∧
    (getNewSessionRun (fun i => if i < 3 then UpstreamOutcome.netError else okGood i) 0).waits
      = min 3 (newSessionRetries + 1) :=
  claim1_min_attempts (fun i => if i < 3 then UpstreamOutcome.netError else okGood i) 3
    (by decide) (by decide)

/-- C2 (counterexample): the claim says a received non-2xx upstream
response is returned immediately on the first attempt and never retried.
Under the default axios `validateStatus`, a 404 response rejects the fetch
promise, so on an oracle whose first fetch receives a 404 and whose second
receives a 200, the code makes two attempts and returns the second
response: the 404 was retried, not returned. -/
theorem claim2_counterexample :
    (getNewSessionRun first404 0).attempts = 2 ∧
    (getNewSessionRun first404 0).result.get "statusCode" = some (Jval.number 200) := by
  have h0 : axiosCall (first404 0) =
      Except.error (AxiosError.withResponse 404
        (Jval.object [("message", Jval.string "not found")])) := rfl
  have h1 : axiosCall (first404 1) =
      Except.ok (200, Jval.object [("status", Jval.boolean true),
        ("data", Jval.object [("token", Jval.string "t")])]) := rfl
  rw [getNewSessionRun_retry first404 0 _ h0 (by decide),
    getNewSessionRun_ok first404 1 _ _ h1]
  exact ⟨rfl, rfl⟩

/-- C2 (amended): session acquisition returns after a single attempt
exactly when the first fetch promise resolves (which, under the default
axios `validateStatus`, means a 2xx response); every rejected first fetch —
a transport failure or a received non-2xx response alike — triggers a
retry, so at least two attempts are made. -/
theorem claim2_retry_condition (up : Nat → UpstreamOutcome) :
    (fetchThrows (up 0) = false → (getNewSessionRun up 0).attempts = 1) ∧
    (fetchThrows (up 0) = true → 2 ≤ (getNewSessionRun up 0).attempts) := by
  constructor
  · intro h
    obtain ⟨status, body, hok⟩ := fetch_ok_of_not_throws (up 0) h
    rw [getNewSessionRun_ok up 0 status body hok]
  · intro h
    obtain ⟨e, he⟩ := fetch_err_of_throws (up 0) h
    rw [getNewSessionRun_retry up 0 e he (by decide)]
    show 2 ≤ (getNewSessionRun up 1).attempts + 1
    have := attempts_pos up 1
    omega

/-- C2 (witness): a resolving oracle yields one attempt; an always-failing
oracle yields at least two. -/
theorem claim2_retry_condition_witness :
    (getNewSessionRun okGood 0).attempts = 1 ∧
    2 ≤ (getNewSessionRun alwaysNetError 0).attempts :=
  ⟨(claim2_retry_condition okGood).1 rfl,
   (claim2_retry_condition alwaysNetError).2 rfl⟩

/-- C9: for every oracle the session acquirer terminates within
`newSessionRetries + 1 = 101` fetch attempts, and when every fetch fails at
the transport level it stops after exactly 101 attempts (the 100 retries
exhausted) and the handler replies with status 500 and the error string
"Internal server error". -/
theorem claim9_termination :
    (∀ up : Nat → UpstreamOutcome,
      (getNewSessionRun up 0).attempts ≤ newSessionRetries + 1) ∧
    (∀ (up : Nat → UpstreamOutcome) (cUp : Jval → UpstreamOutcome) (reqBody : Jval),
      (∀ i, up i = UpstreamOutcome.netError) →
      (getNewSessionRun up 0).attempts = newSessionRetries + 1 ∧
      (handleConversationRun up cUp reqBody).reply =
        ⟨500, ReplyBody.json (Jval.object [("status", Jval.boolean false),
          ("statusCode", Jval.number 500),
          ("error", Jval.string "Internal server error")])⟩) := by
  constructor
  · intro up
    exact attempts_le up newSessionRetries 0 (by omega)
  · intro up cUp reqBody hnet
    obtain ⟨e, he, hrun⟩ := run_allThrow up newSessionRetries 0 (by omega)
      (fun i h1 h2 => by rw [hnet i]; rfl)
    rw [hnet newSessionRetries] at he
    have he2 : AxiosError.noResponse = e := by
      have h3 : Except.error (ε := AxiosError) (α := Int × Jval) AxiosError.noResponse =
          Except.error e := he
      injection h3
    rw [← he2] at hrun
    constructor
    · rw [hrun]
    · simp only [handleConversationRun]
      rw [hrun]
      rfl

/-- C9 (witness): the always-failing oracle exhausts the bound and the
handler replies 500 with the error string. -/
theorem claim9_termination_witness :
    (getNewSessionRun alwaysNetError 0).attempts = newSessionRetries + 1 ∧
    (handleConversationRun alwaysNetError compNetError (Jval.object [])).reply =
      ⟨500, ReplyBody.json (Jval.object [("status", Jval.boolean false),
        ("statusCode", Jval.number 500),
        ("error", Jval.string "Internal server error")])⟩ :=
  claim9_termination.2 alwaysNetError compNetError (Jval.object []) (fun _ => rfl)

/-- C3 (counterexample): the claim says every produced result satisfies
`status = true` iff `error` absent and `data` present.  A session fetch
that resolves with body `{status: true}` is passed through with only its
`statusCode` overwritten, producing a result whose `status` is true but
whose `data` is absent: the invariant fails. -/
theorem claim3_counterexample : uniformInv (getNewSession okNoData) = false := by
  unfold getNewSession
  rw [getNewSessionRun_ok okNoData 0 200 (Jval.object [("status", Jval.boolean true)]) rfl]
  rfl

/-- C3 (amended): every error-normalized result (with or without the
default-message patch) satisfies the invariant, and a produced result of
the session acquirer or the completion stage satisfies it provided every
resolved upstream body still satisfies it after the `statusCode`
overwrite — the success path merely echoes the upstream body, so the
invariant holds exactly when the upstream supplies it. -/
theorem claim3_invariant :
    (∀ e, uniformInv (handleErrorResponse e) = true) ∧
    (∀ e msg, uniformInv (patchError (handleErrorResponse e) msg) = true) ∧
    (∀ up : Nat → UpstreamOutcome,
      (∀ i status body, axiosCall (up i) = Except.ok (status, body) →
        uniformInv (body.setField "statusCode" (Jval.number status)) = true) →
      uniformInv (getNewSession up) = true) ∧
    (∀ (cUp : Jval → UpstreamOutcome) (req : Jval),
      (∀ status body, axiosCall (cUp req) = Except.ok (status, body) →
        uniformInv (body.setField "statusCode" (Jval.number status)) = true) →
      uniformInv (getCompletionWithOpenAiRun cUp req).result = true) := by
  refine ⟨uniformInv_handleError, uniformInv_patchError, ?_, ?_⟩
  · intro up h
    unfold getNewSession
    rcases run_cases up newSessionRetries 0 (by omega) with
      ⟨i, status, body, hok, hres⟩ | ⟨e, hres⟩
    · rw [hres]
      exact h i status body hok
    · rw [hres]
      exact uniformInv_patchError (some e) _
  · intro cUp req h
    unfold getCompletionWithOpenAiRun
    split
    · exact uniformInv_handleError none
    · cases ha : axiosCall (cUp req) with
      | ok p =>
          obtain ⟨status, body⟩ := p
          exact h status body ha
      | error e =>
          exact uniformInv_patchError (some e) _

/-- C3 (witness): a well-formed session oracle and an echoing completion
post on a session-only request both yield invariant-satisfying results. -/
theorem claim3_invariant_witness :
    uniformInv (getNewSession okGood) = true ∧
    uniformInv (getCompletionWithOpenAiRun compEcho reqSessionOnly).result = true := by
  constructor
  · refine claim3_invariant.2.2.1 okGood ?_
    intro i status body hok
    have h2 : Except.ok ((200 : Int), Jval.object [("status", Jval.boolean true),
        ("data", Jval.object [("token", Jval.string "t")])]) = Except.ok (status, body) := hok
    cases h2
    rfl
  · refine claim3_invariant.2.2.2 compEcho reqSessionOnly ?_
    intro status body hok
    have h2 : Except.ok ((200 : Int), reqSessionOnly) = Except.ok (status, body) := hok
    cases h2
    rfl

/-- C4: the completion stage of either variant, called with an
absent/falsy session, returns the generic result — `statusCode` 500,
`status` false, `error` "Internal server error" — after zero outbound
network calls. -/
theorem claim4_no_session_guard :
    (∀ (cUp : Jval → UpstreamOutcome) (req : Jval),
      truthy (req.get "session") = false →
      getCompletionWithOpenAiRun cUp req =
        ⟨Jval.object [("status", Jval.boolean false), ("statusCode", Jval.number 500),
          ("error", Jval.string "Internal server error")], 0⟩) ∧
    (∀ (cUp : Jval → UpstreamOutcome) (session : Option Jval),
      truthy session = false →
      getCompletionWithOpenAiRunB cUp session =
        ⟨Jval.object [("status", Jval.boolean false), ("statusCode", Jval.number 500),
          ("error", Jval.string "Internal server error")], 0⟩) := by
  constructor
  · intro cUp req h
    unfold getCompletionWithOpenAiRun
    rw [if_pos h]
    rfl
  · intro cUp session h
    unfold getCompletionWithOpenAiRunB
    rw [if_pos h]
    rfl

/-- C4 (witness): a request without a session field, and the B variant's
`undefined` session, both short-circuit to the generic 500 result. -/
theorem claim4_no_session_guard_witness :
    getCompletionWithOpenAiRun compEcho (Jval.object []) =
      ⟨Jval.object [("status", Jval.boolean false), ("statusCode", Jval.number 500),
        ("error", Jval.string "Internal server error")], 0⟩ ∧
    getCompletionWithOpenAiRunB compEcho none =
      ⟨Jval.object [("status", Jval.boolean false), ("statusCode", Jval.number 500),
        ("error", Jval.string "Internal server error")], 0⟩ :=
  ⟨claim4_no_session_guard.1 compEcho (Jval.object []) rfl,
   claim4_no_session_guard.2 compEcho none rfl⟩

/-- C5 (counterexample): the claim says every path/method pair other than
`GET /` and `POST /v1/chat/completions` — including OPTIONS — gets a 404
with error type "invalid_request_error".  An OPTIONS request to an unknown
path is answered 200 with an empty body by the CORS middleware before the
404 fallback can run. -/
theorem claim5_counterexample :
    gateway "8000" alwaysNetError compNetError Method.options "/unknown" (Jval.object []) =
      ⟨200, ReplyBody.empty⟩ ∧
    errType (gateway "8000" alwaysNetError compNetError Method.options "/unknown"
        (Jval.object [])) ≠ some (Jval.string "invalid_request_error") := by
  refine ⟨rfl, ?_⟩
  intro h
  exact Option.noConfusion h

/-- C5 (amended): every non-OPTIONS request whose method/path pair is
neither `GET /` nor `POST /v1/chat/completions` receives a 404 reply whose
body's `error.type` is "invalid_request_error"; OPTIONS requests are
instead answered 200 by the CORS middleware before routing. -/
theorem claim5_not_found (port : String) (sUp : Nat → UpstreamOutcome)
    (cUp : Jval → UpstreamOutcome) (m : Method) (path : String) (reqBody : Jval)
    (hm : m ≠ Method.options)
    (h1 : ¬ (m = Method.get ∧ path = "/"))
    (h2 : ¬ (m = Method.post ∧ path = "/v1/chat/completions")) :
    gateway port sUp cUp m path reqBody =
      ⟨404, ReplyBody.json (notFoundBody port m path)⟩ ∧
    errType (gateway port sUp cUp m path reqBody) =
      some (Jval.string "invalid_request_error") := by
  have hg : gateway port sUp cUp m path reqBody =
      ⟨404, ReplyBody.json (notFoundBody port m path)⟩ := by
    unfold gateway
    rw [if_neg hm, if_neg h1, if_neg h2]
  refine ⟨hg, ?_⟩
  rw [hg]
  rfl

/-- C5 (witness): a GET to an unknown path is answered 404 with the
invalid-request error type. -/
theorem claim5_not_found_witness :
    gateway "8000" alwaysNetError compNetError Method.get "/unknown" (Jval.object []) =
      ⟨404, ReplyBody.json (notFoundBody "8000" Method.get "/unknown")⟩ ∧
    errType (gateway "8000" alwaysNetError compNetError Method.get "/unknown"
        (Jval.object [])) = some (Jval.string "invalid_request_error") :=
  claim5_not_found "8000" alwaysNetError compNetError Method.get "/unknown" (Jval.object [])
    (by decide) (by simp) (by simp)

/-- Branch equation of the conversation handler when session acquisition
reports a falsy `status`. -/
theorem handleConv_sessionFail (sUp : Nat → UpstreamOutcome) (cUp : Jval → UpstreamOutcome)
    (reqBody : Jval)
    (h : truthy ((getNewSessionRun sUp 0).result.get "status") = false) :
    handleConversationRun sUp cUp reqBody =
      ⟨⟨jStatus (getNewSessionRun sUp 0).result,
        ReplyBody.json (getNewSessionRun sUp 0).result⟩,
       (getNewSessionRun sUp 0).attempts, 0, 0⟩ := by
  simp only [handleConversationRun]
  rw [h]
  rfl

/-- Branch equation of the conversation handler when session acquisition
reports a truthy `status`. -/
theorem handleConv_sessionOk (sUp : Nat → UpstreamOutcome) (cUp : Jval → UpstreamOutcome)
    (reqBody : Jval)
    (h : truthy ((getNewSessionRun sUp 0).result.get "status") = true) :
    handleConversationRun sUp cUp reqBody =
      ⟨⟨jStatus (getCompletionWithOpenAiRun cUp
          (composedOf (getNewSessionRun sUp 0).result reqBody)).result,
        ReplyBody.json (getCompletionWithOpenAiRun cUp
          (composedOf (getNewSessionRun sUp 0).result reqBody)).result⟩,
       (getNewSessionRun sUp 0).attempts, 1,
       (getCompletionWithOpenAiRun cUp
          (composedOf (getNewSessionRun sUp 0).result reqBody)).netCalls⟩ := by
  simp only [handleConversationRun]
  rw [h]
  rfl

/-- Branch equation of the session-only handler when session acquisition
reports a falsy `status`. -/
theorem handleChatB_sessionFail (sUp : Nat → UpstreamOutcome) (cUp : Jval → UpstreamOutcome)
    (h : truthy ((getNewSessionRunB sUp 0).result.get "status") = false) :
    handleChatCompletionRun sUp cUp =
      ⟨⟨jStatus (getNewSessionRunB sUp 0).result,
        ReplyBody.json (getNewSessionRunB sUp 0).result⟩,
       (getNewSessionRunB sUp 0).attempts, 0, 0⟩ := by
  simp only [handleChatCompletionRun]
  rw [h]
  rfl

/-- Branch equation of the session-only handler when session acquisition
reports a truthy `status`. -/
theorem handleChatB_sessionOk (sUp : Nat → UpstreamOutcome) (cUp : Jval → UpstreamOutcome)
    (h : truthy ((getNewSessionRunB sUp 0).result.get "status") = true) :
    handleChatCompletionRun sUp cUp =
      ⟨⟨jStatus (getCompletionWithOpenAiRunB cUp
          ((getNewSessionRunB sUp 0).result.get "data")).result,
        ReplyBody.json (getCompletionWithOpenAiRunB cUp
          ((getNewSessionRunB sUp 0).result.get "data")).result⟩,
       (getNewSessionRunB sUp 0).attempts, 1,
       (getCompletionWithOpenAiRunB cUp
          ((getNewSessionRunB sUp 0).result.get "data")).netCalls⟩ := by
  simp only [handleChatCompletionRun]
  rw [h]
  rfl

/-- Round-trip computation shared by the C6 theorems: with the session
endpoint resolving 200 `{statusCode, status: true, data: bundle}` and the
completion endpoint echoing the posted body with 200, the POST route
replies 200 with the echoed composed request carrying the written-in
`statusCode` field. -/
theorem roundtrip_reply (port : String) (bundle conv : Jval)
    (hb : truthyV bundle = true) :
    gateway port
      (fun _ => UpstreamOutcome.reply 200 (Jval.object [("statusCode", Jval.number 200),
        ("status", Jval.boolean true), ("data", bundle)]))
      compEcho Method.post "/v1/chat/completions" conv =
    ⟨200, ReplyBody.json (Jval.object [("session", bundle), ("conversation", conv),
      ("statusCode", Jval.number 200)])⟩ := by
  have hsess := getNewSessionRun_ok
    (fun _ => UpstreamOutcome.reply 200 (Jval.object [("statusCode", Jval.number 200),
      ("status", Jval.boolean true), ("data", bundle)])) 0 200
    (Jval.object [("statusCode", Jval.number 200), ("status", Jval.boolean true),
      ("data", bundle)]) rfl
  have hst : truthy ((getNewSessionRun
      (fun _ => UpstreamOutcome.reply 200 (Jval.object [("statusCode", Jval.number 200),
        ("status", Jval.boolean true), ("data", bundle)])) 0).result.get "status") = true := by
    rw [hsess]
    rfl
  have hcomp : composedOf (getNewSessionRun
      (fun _ => UpstreamOutcome.reply 200 (Jval.object [("statusCode", Jval.number 200),
        ("status", Jval.boolean true), ("data", bundle)])) 0).result conv =
      Jval.object [("session", bundle), ("conversation", conv)] := by
    rw [hsess]
    rfl
  unfold gateway
  rw [if_neg (by decide : ¬ Method.post = Method.options)]
  rw [if_neg (by simp : ¬ (Method.post = Method.get ∧
    ("/v1/chat/completions" : String) = "/"))]
  rw [if_pos ⟨rfl, rfl⟩]
  rw [handleConv_sessionOk _ compEcho conv hst]
  rw [hcomp]
  have hs2 : truthy ((Jval.object [("session", bundle), ("conversation", conv)]).get
      "session") = true := hb
  have hok2 : axiosCall (compEcho (Jval.object [("session", bundle),
      ("conversation", conv)])) =
      Except.ok (200, Jval.object [("session", bundle), ("conversation", conv)]) := rfl
  rw [getCompletionWithOpenAiRun_ok _ _ _ _ hs2 hok2]
  rfl

/-- C6 (counterexample): the claim says the round-trip reply body equals
the echoed composed request `{session, conversation}` exactly.  It does
not: `apiResponse.statusCode = response.status` writes a `statusCode: 200`
field into the echoed object before it is relayed. -/
theorem claim6_counterexample :
    gateway "8000"
      (fun _ => UpstreamOutcome.reply 200 (Jval.object [("statusCode", Jval.number 200),
        ("status", Jval.boolean true), ("data", bundleC)]))
      compEcho Method.post "/v1/chat/completions" convC ≠
    ⟨200, ReplyBody.json (Jval.object [("session", bundleC), ("conversation", convC)])⟩ := by
  intro h
  rw [roundtrip_reply "8000" bundleC convC rfl] at h
  have hb2 : ReplyBody.json (Jval.object [("session", bundleC), ("conversation", convC),
      ("statusCode", Jval.number 200)]) =
      ReplyBody.json (Jval.object [("session", bundleC), ("conversation", convC)]) :=
    congrArg HttpReply.body h
  injection hb2 with hj
  have hx : some (Jval.number 200) = (none : Option Jval) :=
    congrArg (fun v => Jval.get v "statusCode") hj
  exact Option.noConfusion hx

/-- C6 (amended): under the round-trip scenario — session endpoint
resolving 200 `{statusCode: 200, status: true, data: bundle}` with a
truthy bundle, completion endpoint echoing its request body with 200 —
`POST /v1/chat/completions` replies 200 with the echoed composed request
`{session: bundle, conversation: inbound body}` augmented with the
`statusCode: 200` field the code writes into the relayed body. -/
theorem claim6_roundtrip (port : String) (bundle conv : Jval)
    (hb : truthyV bundle = true) :
    gateway port
      (fun _ => UpstreamOutcome.reply 200 (Jval.object [("statusCode", Jval.number 200),
        ("status", Jval.boolean true), ("data", bundle)]))
      compEcho Method.post "/v1/chat/completions" conv =
    ⟨200, ReplyBody.json (Jval.object [("session", bundle), ("conversation", conv),
      ("statusCode", Jval.number 200)])⟩ :=
  roundtrip_reply port bundle conv hb

/-- C6 (witness): the concrete bundle and conversation round-trip. -/
theorem claim6_roundtrip_witness :
    gateway "8000"
      (fun _ => UpstreamOutcome.reply 200 (Jval.object [("statusCode", Jval.number 200),
        ("status", Jval.boolean true), ("data", bundleC)]))
      compEcho Method.post "/v1/chat/completions" convC =
    ⟨200, ReplyBody.json (Jval.object [("session", bundleC), ("conversation", convC),
      ("statusCode", Jval.number 200)])⟩ :=
  claim6_roundtrip "8000" bundleC convC rfl

/-- C7 (counterexample): the claim says both variants substitute the
"Error while getting completions..." default when a failed completion's
normalized result lacks an error string.  The session-only variant returns
the normalized result unpatched: a 404 response with an empty body leaves
the `error` field absent. -/
theorem claim7_counterexample :
    ((getCompletionWithOpenAiRunB comp404Blank
      (some (Jval.object [("token", Jval.string "t")]))).result).get "error" = none ∧
    ((getCompletionWithOpenAiRunB comp404Blank
      (some (Jval.object [("token", Jval.string "t")]))).result).get "status" =
        some (Jval.boolean false) := by
  exact ⟨rfl, rfl⟩

/-- C7 (amended): only the conversation variant substitutes the
"Error while getting completions..." default when the normalized result
of a thrown completion post lacks a truthy error string; the session-only
variant returns the normalized result unpatched. -/
theorem claim7_default_message :
    (∀ (cUp : Jval → UpstreamOutcome) (req : Jval) (e : AxiosError),
      truthy (req.get "session") = true →
      axiosCall (cUp req) = Except.error e →
      truthy ((handleErrorResponse (some e)).get "error") = false →
      (getCompletionWithOpenAiRun cUp req).result =
        (handleErrorResponse (some e)).setField "error"
          (Jval.string "Error while getting completions...")) ∧
    (∀ (cUp : Jval → UpstreamOutcome) (session : Option Jval) (e : AxiosError),
      truthy session = true →
      axiosCall (cUp (session.getD Jval.null)) = Except.error e →
      (getCompletionWithOpenAiRunB cUp session).result = handleErrorResponse (some e)) := by
  constructor
  · intro cUp req e hs herr hmiss
    unfold getCompletionWithOpenAiRun
    rw [hs]
    rw [if_neg (by simp)]
    rw [herr]
    show patchError (handleErrorResponse (some e)) "Error while getting completions..." = _
    unfold patchError
    rw [hmiss]
    rw [if_neg (by simp)]
  · intro cUp session e hs herr
    unfold getCompletionWithOpenAiRunB
    rw [hs]
    rw [if_neg (by simp)]
    rw [herr]

/-- C7 (witness): a 404 with an empty body on a session-carrying request
gets the default message in the conversation variant; the same failure is
returned unpatched by the session-only variant. -/
theorem claim7_default_message_witness :
    (getCompletionWithOpenAiRun comp404Blank reqSessionOnly).result =
      (handleErrorResponse (some (AxiosError.withResponse 404
        (Jval.object [])))).setField "error"
        (Jval.string "Error while getting completions...") ∧
    (getCompletionWithOpenAiRunB comp404Blank
        (some (Jval.object [("token", Jval.string "t")]))).result =
      handleErrorResponse (some (AxiosError.withResponse 404 (Jval.object []))) :=
  ⟨claim7_default_message.1 comp404Blank reqSessionOnly
    (AxiosError.withResponse 404 (Jval.object [])) rfl rfl rfl,
   claim7_default_message.2 comp404Blank
    (some (Jval.object [("token", Jval.string "t")]))
    (AxiosError.withResponse 404 (Jval.object [])) rfl rfl⟩

/-- C8: in both variants, when the session result's `status` is falsy the
handler relays that result — its embedded `statusCode` as the HTTP status
and the result itself as the JSON body — and never invokes the completion
stage; when the `status` is truthy the handler invokes the completion
stage exactly once on the bundle extracted from `data` and relays the
completion result's `statusCode` and body verbatim, whatever its
success. -/
theorem claim8_relay (sUp : Nat → UpstreamOutcome) (cUp : Jval → UpstreamOutcome)
    (reqBody : Jval) :
    (truthy ((getNewSessionRun sUp 0).result.get "status") = false →
      handleConversationRun sUp cUp reqBody =
        ⟨⟨jStatus (getNewSessionRun sUp 0).result,
          ReplyBody.json (getNewSessionRun sUp 0).result⟩,
         (getNewSessionRun sUp 0).attempts, 0, 0⟩) ∧
    (truthy ((getNewSessionRun sUp 0).result.get "status") = true →
      handleConversationRun sUp cUp reqBody =
        ⟨⟨jStatus (getCompletionWithOpenAiRun cUp
            (composedOf (getNewSessionRun sUp 0).result reqBody)).result,
          ReplyBody.json (getCompletionWithOpenAiRun cUp
            (composedOf (getNewSessionRun sUp 0).result reqBody)).result⟩,
         (getNewSessionRun sUp 0).attempts, 1,
         (getCompletionWithOpenAiRun cUp
            (composedOf (getNewSessionRun sUp 0).result reqBody)).netCalls⟩) ∧
    (truthy ((getNewSessionRunB sUp 0).result.get "status") = false →
      handleChatCompletionRun sUp cUp =
        ⟨⟨jStatus (getNewSessionRunB sUp 0).result,
          ReplyBody.json (getNewSessionRunB sUp 0).result⟩,
         (getNewSessionRunB sUp 0).attempts, 0, 0⟩) ∧
    (truthy ((getNewSessionRunB sUp 0).result.get "status") = true →
      handleChatCompletionRun sUp cUp =
        ⟨⟨jStatus (getCompletionWithOpenAiRunB cUp
            ((getNewSessionRunB sUp 0).result.get "data")).result,
          ReplyBody.json (getCompletionWithOpenAiRunB cUp
            ((getNewSessionRunB sUp 0).result.get "data")).result⟩,
         (getNewSessionRunB sUp 0).attempts, 1,
         (getCompletionWithOpenAiRunB cUp
            ((getNewSessionRunB sUp 0).result.get "data")).netCalls⟩) :=
  ⟨fun h => handleConv_sessionFail sUp cUp reqBody h,
   fun h => handleConv_sessionOk sUp cUp reqBody h,
   fun h => handleChatB_sessionFail sUp cUp h,
   fun h => handleChatB_sessionOk sUp cUp h⟩

/-- C8 (witness): a status-false session result is relayed with no
completion invocation; a status-true one leads to exactly one completion
invocation whose result is relayed, in both variants. -/
theorem claim8_relay_witness :
    handleConversationRun okStatusFalse compEcho (Jval.object []) =
      ⟨⟨jStatus (getNewSessionRun okStatusFalse 0).result,
        ReplyBody.json (getNewSessionRun okStatusFalse 0).result⟩,
       (getNewSessionRun okStatusFalse 0).attempts, 0, 0⟩ ∧
    handleConversationRun okGood compEcho (Jval.object []) =
      ⟨⟨jStatus (getCompletionWithOpenAiRun compEcho
          (composedOf (getNewSessionRun okGood 0).result (Jval.object []))).result,
        ReplyBody.json (getCompletionWithOpenAiRun compEcho
          (composedOf (getNewSessionRun okGood 0).result (Jval.object []))).result⟩,
       (getNewSessionRun okGood 0).attempts, 1,
       (getCompletionWithOpenAiRun compEcho
          (composedOf (getNewSessionRun okGood 0).result (Jval.object []))).netCalls⟩ ∧
    handleChatCompletionRun okStatusFalse compEcho =
      ⟨⟨jStatus (getNewSessionRunB okStatusFalse 0).result,
        ReplyBody.json (getNewSessionRunB okStatusFalse 0).result⟩,
       (getNewSessionRunB okStatusFalse 0).attempts, 0, 0⟩ ∧
    handleChatCompletionRun okGood compEcho =
      ⟨⟨jStatus (getCompletionWithOpenAiRunB compEcho
          ((getNewSessionRunB okGood 0).result.get "data")).result,
        ReplyBody.json (getCompletionWithOpenAiRunB compEcho
          ((getNewSessionRunB okGood 0).result.get "data")).result⟩,
       (getNewSessionRunB okGood 0).attempts, 1,
       (getCompletionWithOpenAiRunB compEcho
          ((getNewSessionRunB okGood 0).result.get "data")).netCalls⟩ :=
  ⟨(claim8_relay okStatusFalse compEcho (Jval.object [])).1
    (by rw [getNewSessionRun_ok okStatusFalse 0 200
      (Jval.object [("status", Jval.boolean false)]) rfl]; rfl),
   (claim8_relay okGood compEcho (Jval.object [])).2.1
    (by rw [getNewSessionRun_ok okGood 0 200
      (Jval.object [("status", Jval.boolean true),
        ("data", Jval.object [("token", Jval.string "t")])]) rfl]; rfl),
   (claim8_relay okStatusFalse compEcho (Jval.object [])).2.2.1
    (by rw [getNewSessionRunB_ok okStatusFalse 0 200
      (Jval.object [("status", Jval.boolean false)]) rfl]; rfl),
   (claim8_relay okGood compEcho (Jval.object [])).2.2.2
    (by rw [getNewSessionRunB_ok okGood 0 200
      (Jval.object [("status", Jval.boolean true),
        ("data", Jval.object [("token", Jval.string "t")])]) rfl]; rfl)⟩

/-- C10: when the session result's `status` is truthy but its `data` is
absent or falsy, the handler still proceeds to the completion stage, whose
falsy-session guard fires: the caller receives status 500 with the generic
`{status: false, statusCode: 500, error: "Internal server error"}` body,
the completion stage is invoked once, and no completion network call is
made. -/
theorem claim10_falsy_data (sUp : Nat → UpstreamOutcome) (cUp : Jval → UpstreamOutcome)
    (reqBody : Jval)
    (h1 : truthy ((getNewSessionRun sUp 0).result.get "status") = true)
    (h2 : truthy ((getNewSessionRun sUp 0).result.get "data") = false) :
    handleConversationRun sUp cUp reqBody =
      ⟨⟨500, ReplyBody.json (Jval.object [("status", Jval.boolean false),
        ("statusCode", Jval.number 500), ("error", Jval.string "Internal server error")])⟩,
       (getNewSessionRun sUp 0).attempts, 1, 0⟩ := by
  rw [handleConv_sessionOk sUp cUp reqBody h1]
  have hguard : truthy ((composedOf (getNewSessionRun sUp 0).result reqBody).get
      "session") = false := by
    unfold composedOf
    cases hd : (getNewSessionRun sUp 0).result.get "data" with
    | none => rfl
    | some v =>
        rw [hd] at h2
        exact h2
  have hc : getCompletionWithOpenAiRun cUp
      (composedOf (getNewSessionRun sUp 0).result reqBody) =
      ⟨handleErrorResponse none, 0⟩ := by
    unfold getCompletionWithOpenAiRun
    rw [if_pos hguard]
  rw [hc]
  rfl

/-- C10 (witness): a session body `{status: true}` with no `data` leads to
the generic 500 reply with one completion invocation and no completion
network call. -/
theorem claim10_falsy_data_witness :
    handleConversationRun okNoData compEcho (Jval.object []) =
      ⟨⟨500, ReplyBody.json (Jval.object [("status", Jval.boolean false),
        ("statusCode", Jval.number 500), ("error", Jval.string "Internal server error")])⟩,
       (getNewSessionRun okNoData 0).attempts, 1, 0⟩ :=
  claim10_falsy_data okNoData compEcho (Jval.object [])
    (by rw [getNewSessionRun_ok okNoData 0 200
      (Jval.object [("status", Jval.boolean true)]) rfl]; rfl)
    (by rw [getNewSessionRun_ok okNoData 0 200
      (Jval.object [("status", Jval.boolean true)]) rfl]; rfl)

end OpenAiGateway
